import Mathlib

/-!
Verification of the stargazing integration's scoring engine, notification
debounce and astronomy-event catalog, as a shallow embedding of the Python
sources `src/stargazing/scoring.py`,
`src/custom_components/stargazing/__init__.py` and
`src/custom_components/stargazing/astronomy_events.py`.

Python float arithmetic is embedded as exact rational arithmetic on the
fraction type `PyF` below (every concrete value in the claims is far from
any rounding boundary); timestamps are `Int` seconds; Python exceptions
are an explicit `Except` error channel.
-/

namespace Stargazing

/-- An exact fraction `n / d` with positive denominator, used to embed
Python float arithmetic.  The operations below are the exact rational
ones, kept in unreduced form; `toRat` and the `toRat_*` lemmas check them
against Mathlib's `Rat`. -/
structure PyF where
  n : Int
  d : Int
  dpos : 0 < d

/-- The fraction `k / 1`. -/
def pyF (k : Int) : PyF := ⟨k, 1, one_pos⟩

def PyF.add (a b : PyF) : PyF :=
  ⟨a.n * b.d + b.n * a.d, a.d * b.d, mul_pos a.dpos b.dpos⟩

def PyF.sub (a b : PyF) : PyF :=
  ⟨a.n * b.d - b.n * a.d, a.d * b.d, mul_pos a.dpos b.dpos⟩

def PyF.mul (a b : PyF) : PyF :=
  ⟨a.n * b.n, a.d * b.d, mul_pos a.dpos b.dpos⟩

/-- `a ≤ b` by cross-multiplication (sound because denominators are
positive). -/
def PyF.le (a b : PyF) : Prop := a.n * b.d ≤ b.n * a.d

def PyF.lt (a b : PyF) : Prop := a.n * b.d < b.n * a.d

instance (a b : PyF) : Decidable (PyF.le a b) := Int.decLe _ _

instance (a b : PyF) : Decidable (PyF.lt a b) := Int.decLt _ _

/-- Python's `min(a, b)`: the first argument when `a <= b`. -/
def PyF.pymin (a b : PyF) : PyF := if PyF.le a b then a else b

/-- Python's `max(a, b)`: the first argument when `a >= b`. -/
def PyF.pymax (a b : PyF) : PyF := if PyF.le b a then a else b

/-- Python's `int(x)` (truncation toward zero). -/
def PyF.trunc (a : PyF) : Int := Int.tdiv a.n a.d

/-- The rational number a `PyF` denotes. -/
def PyF.toRat (a : PyF) : Rat := (a.n : Rat) / (a.d : Rat)

/-- The Python exception classes that the embedded code can raise.
`keyError`, `valueError` and `typeError` are the classes listed in the
`except` clause of `calculate_score`; `attributeError` (from calling
`.lower()` on a non-string) and `zeroDivisionError` (from `x / 0.0`)
are not listed there and so escape it. -/
inductive PyErr
  | keyError
  | valueError
  | typeError
  | attributeError
  | zeroDivisionError
deriving DecidableEq, Repr

instance {ε α : Type} [DecidableEq ε] [DecidableEq α] : DecidableEq (Except ε α)
  | .ok a, .ok b => decidable_of_iff (a = b) (by simp)
  | .ok _, .error _ => isFalse (by simp)
  | .error _, .ok _ => isFalse (by simp)
  | .error e, .error f => decidable_of_iff (e = f) (by simp)

/-- Python's `a / b` on floats: `ZeroDivisionError` when the divisor is
zero, otherwise the exact quotient (sign moved into the numerator so the
denominator stays positive). -/
def pyDiv (a b : PyF) : Except PyErr PyF :=
  if hb : 0 < b.n then
    .ok ⟨a.n * b.d, a.d * b.n, mul_pos a.dpos hb⟩
  else if hb' : b.n < 0 then
    .ok ⟨-(a.n * b.d), a.d * (-b.n), mul_pos a.dpos (by omega)⟩
  else
    .error .zeroDivisionError

/-- A Python value as it may appear in the AstroWeather attributes dict:
a number (int or float), a string, or `obj` standing for any other object
(None, list, dict, ...) — one that `float()` rejects with a `TypeError`
and that has no `lower` method. -/
inductive PyVal
  | num (x : PyF)
  | str (s : String)
  | obj

/-- Reads a list of characters as a decimal natural number, or `none` if
any character is not a digit or the list is empty.  This is the fragment
of Python's numeric-string grammar the development needs: strings used in
the claims are either plain digit strings (accepted by `float()`) or
clearly non-numeric (rejected with `ValueError`). -/
def decDigits (cs : List Char) : Option Nat :=
  if cs ≠ [] ∧ cs.all (fun c => c.isDigit) then
    some (cs.foldl (fun a c => a * 10 + (c.toNat - 48)) 0)
  else
    none

/-- Embedding of Python's `float(v)`: a number converts to itself, a string
parses or raises `ValueError`, any other object raises `TypeError`. -/
def pyFloat : PyVal → Except PyErr PyF
  | .num x => .ok x
  | .str s =>
    match decDigits s.toList with
    | some k => .ok (pyF k)
    | none => .error .valueError
  | .obj => .error .typeError

/-- ASCII lowering of one character, as Python's `str.lower` does on the
ASCII icon names this code sees. -/
def pyLowerChar (c : Char) : Char :=
  if 65 ≤ c.toNat ∧ c.toNat ≤ 90 then Char.ofNat (c.toNat + 32) else c

/-- Embedding of Python's `v.lower()` for a value expected to be a string:
numbers and other objects have no `lower` method, so the call raises
`AttributeError`.  The result is kept as a character list. -/
def pyLower : PyVal → Except PyErr (List Char)
  | .str s => .ok (s.toList.map pyLowerChar)
  | .num _ => .error .attributeError
  | .obj => .error .attributeError

/-- Whether `needle` starts `hay` (character lists). -/
def headMatch : List Char → List Char → Bool
  | [], _ => true
  | _ :: _, [] => false
  | a :: as, b :: bs => a == b && headMatch as bs

/-- Whether `needle` occurs as a contiguous run inside `hay`. -/
def hasSubList (needle : List Char) : List Char → Bool
  | [] => headMatch needle []
  | b :: bs => headMatch needle (b :: bs) || hasSubList needle bs

/-- Embedding of Python's substring test `needle in hay`. -/
def pyIn (needle : String) (hay : List Char) : Bool :=
  hasSubList needle.toList hay

/-- The AstroWeather attributes dict, restricted to the six keys the
scoring engine reads.  `none` models an absent key; `astroweather_data.get`
with its default is `Option.getD`. -/
structure AstroDict where
  cloudless_percentage : Option PyVal := none
  transparency_percentage : Option PyVal := none
  seeing_percentage : Option PyVal := none
  calm_percentage : Option PyVal := none
  moon_phase : Option PyVal := none
  moon_icon : Option PyVal := none

/-- The scoring engine's configured thresholds (constructor arguments of
`StargazingScoringEngine`). -/
structure Thresholds where
  min_cloudless : PyF
  min_transparency : PyF
  min_seeing : PyF

/-- The default thresholds of `StargazingScoringEngine.__init__`. -/
def defaultThresholds : Thresholds :=
  { min_cloudless := pyF 95, min_transparency := pyF 70, min_seeing := pyF 65 }

/-- The five `float(...)` conversions at the top of `calculate_score`, in
source order; the first failure aborts with that field's exception. -/
def parseFields (d : AstroDict) : Except PyErr (PyF × PyF × PyF × PyF × PyF) := do
  let cloudless ← pyFloat (d.cloudless_percentage.getD (.num (pyF 0)))
  let transparency ← pyFloat (d.transparency_percentage.getD (.num (pyF 0)))
  let seeing ← pyFloat (d.seeing_percentage.getD (.num (pyF 0)))
  let calm ← pyFloat (d.calm_percentage.getD (.num (pyF 0)))
  let moon_phase ← pyFloat (d.moon_phase.getD (.num (pyF 0)))
  pure (cloudless, transparency, seeing, calm, moon_phase)

/-- The cloudless contribution (cap 30, multiplier 35) with its
division-by-zero guard `if max_cloudless_range > 0`. -/
def cloudlessPoints (cfg : Thresholds) (cloudless : PyF) : Except PyErr PyF :=
  if PyF.lt (pyF 0) (PyF.sub (pyF 100) cfg.min_cloudless) then do
    let ratio ← pyDiv (PyF.sub cloudless cfg.min_cloudless) (PyF.sub (pyF 100) cfg.min_cloudless)
    pure (PyF.pymin (pyF 30) (PyF.mul ratio (pyF 35)))
  else
    pure (pyF 30)

/-- The transparency contribution (cap 25, multiplier 28; below-threshold
partial credit `(transparency / min_transparency) * 10`). -/
def transparencyPoints (cfg : Thresholds) (transparency : PyF) : Except PyErr PyF :=
  if PyF.le cfg.min_transparency transparency then do
    let ratio ← pyDiv (PyF.sub transparency cfg.min_transparency)
      (PyF.sub (pyF 100) cfg.min_transparency)
    pure (PyF.pymin (pyF 25) (PyF.mul ratio (pyF 28)))
  else do
    let r ← pyDiv transparency cfg.min_transparency
    pure (PyF.mul r (pyF 10))

/-- The seeing contribution (cap 20, multiplier 22; below-threshold
partial credit `(seeing / min_seeing) * 8`). -/
def seeingPoints (cfg : Thresholds) (seeing : PyF) : Except PyErr PyF :=
  if PyF.le cfg.min_seeing seeing then do
    let ratio ← pyDiv (PyF.sub seeing cfg.min_seeing) (PyF.sub (pyF 100) cfg.min_seeing)
    pure (PyF.pymin (pyF 20) (PyF.mul ratio (pyF 22)))
  else do
    let r ← pyDiv seeing cfg.min_seeing
    pure (PyF.mul r (pyF 8))

/-- The moon penalty from the lowered icon tag and the numeric phase. -/
def moonPenaltyOf (moon_phase : PyF) (icon : List Char) : Except PyErr PyF :=
  if pyIn "new" icon || pyIn "no-moon" icon then
    pure (pyF 0)
  else if pyIn "full" icon then
    pure (pyF 10)
  else do
    let r ← pyDiv moon_phase (pyF 100)
    pure (PyF.mul r (pyF 10))

/-- The body of `calculate_score` after the five numeric conversions: the
mandatory cloudless gate, the four contributions, the moon penalty, the
clamp to [0,100] and the `int()` truncation. -/
def scoreFromValues (cfg : Thresholds) (cloudless transparency seeing calm moon_phase : PyF)
    (moon_icon : PyVal) : Except PyErr Int :=
  if PyF.lt cloudless cfg.min_cloudless then
    .ok 0
  else do
    let cloudlessPts ← cloudlessPoints cfg cloudless
    let transparencyPts ← transparencyPoints cfg transparency
    let seeingPts ← seeingPoints cfg seeing
    let calmRatio ← pyDiv calm (pyF 100)
    let calmPts := PyF.mul calmRatio (pyF 15)
    let icon ← pyLower moon_icon
    let moonPenalty ← moonPenaltyOf moon_phase icon
    let score := PyF.sub (PyF.add (PyF.add (PyF.add cloudlessPts transparencyPts) seeingPts)
      calmPts) moonPenalty
    let finalScore := PyF.pymax (pyF 0) (PyF.pymin (pyF 100) score)
    pure (PyF.trunc finalScore)

/-- The `try` block of `calculate_score`: parse the six fields, then score. -/
def calcBody (cfg : Thresholds) (d : AstroDict) : Except PyErr Int := do
  let (cloudless, transparency, seeing, calm, moon_phase) ← parseFields d
  scoreFromValues cfg cloudless transparency seeing calm moon_phase
    (d.moon_icon.getD (.str ""))

/-- Whether the `except (KeyError, ValueError, TypeError)` clause of
`calculate_score` catches the exception. -/
def isCaught : PyErr → Bool
  | .keyError => true
  | .valueError => true
  | .typeError => true
  | .attributeError => false
  | .zeroDivisionError => false

/-- `StargazingScoringEngine.calculate_score`: the scoring body wrapped in
the `try/except` that turns a caught exception into the fallback score 0;
an uncaught exception propagates to the caller. -/
def calculate_score (cfg : Thresholds) (d : AstroDict) : Except PyErr Int :=
  match calcBody cfg d with
  | .ok k => .ok k
  | .error e => if isCaught e then .ok 0 else .error e

/-- `StargazingScoringEngine.get_rating`. -/
def get_rating (score : Int) : String :=
  if score ≥ 90 then "EXCEPTIONAL"
  else if score ≥ 80 then "AMAZING"
  else if score ≥ 60 then "Good"
  else "Poor"

/-- Severity rank of a rating label, for stating monotonicity. -/
def ratingRank (r : String) : Nat :=
  if r = "EXCEPTIONAL" then 3
  else if r = "AMAZING" then 2
  else if r = "Good" then 1
  else 0

/-! ### `get_score_breakdown` (src/stargazing/scoring.py) -/

/-- One `{value, threshold, status}` row of the breakdown dict. -/
structure ComponentRow where
  value : PyF
  threshold : PyF
  status : String

/-- The moon-phase `effect` entry: `"None"` or the
`"Slight interference (..%)"` note (the rendered percentage is kept as the
number itself; the surrounding text never branches control flow). -/
inductive MoonEffect
  | noEffect
  | slightInterference (pct : PyF)

structure MoonRow where
  value : PyF
  effect : MoonEffect

structure Breakdown where
  cloudless : ComponentRow
  transparency : ComponentRow
  seeing : ComponentRow
  calm : ComponentRow
  moon_phase : MoonRow

/-- `StargazingScoringEngine.get_score_breakdown`: the same five
`float(...)` conversions, but with no `try/except` around them — a parse
failure propagates to the caller. -/
def get_score_breakdown (cfg : Thresholds) (d : AstroDict) : Except PyErr Breakdown := do
  let cloudless ← pyFloat (d.cloudless_percentage.getD (.num (pyF 0)))
  let transparency ← pyFloat (d.transparency_percentage.getD (.num (pyF 0)))
  let seeing ← pyFloat (d.seeing_percentage.getD (.num (pyF 0)))
  let calm ← pyFloat (d.calm_percentage.getD (.num (pyF 0)))
  let moon_phase ← pyFloat (d.moon_phase.getD (.num (pyF 0)))
  pure
    { cloudless :=
        ⟨cloudless, cfg.min_cloudless,
          if PyF.le cfg.min_cloudless cloudless then "✓ OK" else "✗ Too cloudy"⟩
      transparency :=
        ⟨transparency, cfg.min_transparency,
          if PyF.le cfg.min_transparency transparency then "✓ Good" else "⚠ Poor"⟩
      seeing :=
        ⟨seeing, cfg.min_seeing,
          if PyF.le cfg.min_seeing seeing then "✓ Steady" else "⚠ Turbulent"⟩
      calm :=
        ⟨calm, pyF 60, if PyF.le (pyF 60) calm then "✓ Calm" else "⚠ Windy"⟩
      moon_phase :=
        ⟨moon_phase,
          if PyF.lt moon_phase (pyF 10) ∨ PyF.lt (pyF 90) moon_phase then .noEffect
          else .slightInterference moon_phase⟩ }

/-! ### Notification policy (src/custom_components/stargazing/__init__.py) -/

/-- The mutable notification state on `StargazingData`.  Times are `Int`
seconds, so `(now - last).total_seconds() < 3600` is `now - t < 3600`. -/
structure NotificationState where
  last_notification_type : Option String
  last_notification_time : Option Int
deriving DecidableEq, Repr

/-- Which tier-specific alert coroutine `check_and_notify` awaited. -/
inductive AlertKind
  | exceptional
  | amazing
deriving DecidableEq, Repr

/-- What one `check_and_notify` evaluation did: which alert was sent (if
any), the boolean the send coroutine returned (`some delivery`; `none`
when no send happened) — a value the caller discards — and the state
afterwards. -/
structure NotifyOutcome where
  sent : Option AlertKind
  sendOk : Option Bool
  state : NotificationState
deriving DecidableEq, Repr

/-- The spam-avoidance test at the top of `check_and_notify`: a recorded
notification, less than 3600 s old, whose recorded tier equals
`get_rating(score)`. -/
def debounced (st : NotificationState) (score now : Int) : Bool :=
  match st.last_notification_time with
  | some t =>
    if now - t < 3600 then
      st.last_notification_type == some (get_rating score)
    else false
  | none => false

/-- `StargazingData.check_and_notify`, given the `score` its inner update
computed.  `delivery` says whether the underlying notify service call
succeeds; the `send_*` methods of `StargazingNotificationService` catch a
delivery exception and return `False`, so they never raise, and
`check_and_notify` ignores their boolean result: after either alert path
it unconditionally records the tier and the time. -/
def check_and_notify (delivery : Bool) (score now : Int)
    (st : NotificationState) : NotifyOutcome :=
  if debounced st score now then
    ⟨none, none, st⟩
  else if score ≥ 90 then
    ⟨some .exceptional, some delivery, ⟨some "EXCEPTIONAL", some now⟩⟩
  else if score ≥ 80 then
    ⟨some .amazing, some delivery, ⟨some "AMAZING", some now⟩⟩
  else
    ⟨none, none, st⟩

/-! ### Event catalog (src/custom_components/stargazing/astronomy_events.py) -/

/-- One astronomy event.  `timestamp` is the event's `datetime` in seconds;
the free-text `description` and the ISS-specific extra metrics are
presentation-only fields never read by filtering, sorting or lookup, and
are omitted. -/
structure AstronomyEvent where
  name : String
  timestamp : Int
  etype : String
  visible : Bool
deriving DecidableEq, Repr

/-- Days since 1970-01-01 of a civil date (standard civil-from-days
inverse); used to embed the `datetime(y, m, d, h, mi)` literals. -/
def daysFromCivil (y m d : Int) : Int :=
  let y' := if m ≤ 2 then y - 1 else y
  let era := (if 0 ≤ y' then y' else y' - 399) / 400
  let yoe := y' - era * 400
  let mp := (m + 9) % 12
  let doy := (153 * mp + 2) / 5 + d - 1
  let doe := yoe * 365 + yoe / 4 - yoe / 100 + doy
  era * 146097 + doe - 719468

/-- Seconds since 1970-01-01 00:00 of `datetime(y, m, d, h, mi)`. -/
def dt (y m d h mi : Int) : Int :=
  daysFromCivil y m d * 86400 + h * 3600 + mi * 60

/-- The hardcoded meteor-shower table of `_fetch_meteor_showers`. -/
def meteorTable : List AstronomyEvent :=
  [⟨"Geminid Meteor Shower", dt 2025 12 13 2 0, "meteor_shower", true⟩,
   ⟨"Ursid Meteor Shower", dt 2025 12 23 2 0, "meteor_shower", true⟩,
   ⟨"Quadrantid Meteor Shower", dt 2026 1 4 2 0, "meteor_shower", false⟩]

/-- The hardcoded planetary-event table of `_fetch_planet_events`. -/
def planetTable : List AstronomyEvent :=
  [⟨"Jupiter at Opposition", dt 2025 12 15 0 0, "opposition", true⟩,
   ⟨"Saturn - Best Viewing", dt 2025 12 18 19 0, "favorable_position", true⟩,
   ⟨"Venus Evening Star", dt 2025 12 20 18 30, "visibility", true⟩]

/-- `_fetch_meteor_showers`: the static table filtered to
`today <= datetime <= today + days_ahead`. -/
def fetchMeteorShowers (now daysAhead : Int) : List AstronomyEvent :=
  meteorTable.filter fun e =>
    decide (now ≤ e.timestamp) && decide (e.timestamp ≤ now + daysAhead * 86400)

/-- `_fetch_planet_events`: the static table filtered the same way. -/
def fetchPlanetEvents (now daysAhead : Int) : List AstronomyEvent :=
  planetTable.filter fun e =>
    decide (now ≤ e.timestamp) && decide (e.timestamp ≤ now + daysAhead * 86400)

/-- One well-formed pass record from the ISS API response (a record whose
`startUTC`/`endUTC` parse; malformed records are skipped by the code and
are simply not in this list).  The elevation and magnitude only feed the
description text and are omitted. -/
structure IssPass where
  startUTC : Int
  endUTC : Int
deriving DecidableEq, Repr

/-- `_fetch_iss_passes` on a response holding `passes`: each pass is kept
when `start_time <= now + timedelta(days=days_ahead)` — there is no lower
bound — and becomes an event at its start time.  A network failure is the
`passes = []` instance. -/
def fetchIssPasses (now daysAhead : Int) (passes : List IssPass) : List AstronomyEvent :=
  (passes.filter fun p => decide (p.startUTC ≤ now + daysAhead * 86400)).map
    fun p => ⟨"ISS Pass - Bright Satellite", p.startUTC, "iss_pass", true⟩

/-- The sort key relation of `events.sort(key=lambda x: x["datetime"])`. -/
def evLE (a b : AstronomyEvent) : Prop := a.timestamp ≤ b.timestamp

instance : DecidableRel evLE := fun _ _ => Int.decLe _ _

instance : IsTotal AstronomyEvent evLE := ⟨fun a b => Int.le_total a.timestamp b.timestamp⟩

instance : IsTrans AstronomyEvent evLE := ⟨fun _ _ _ => Int.le_trans⟩

/-- `AstronomyEventsFetcher.fetch_events`: concatenate the three sources
in order, then sort ascending by `datetime` (Python's stable `list.sort`
is modelled by the stable insertion sort). -/
def fetch_events (now daysAhead : Int) (passes : List IssPass) : List AstronomyEvent :=
  List.insertionSort evLE
    (fetchMeteorShowers now daysAhead ++ fetchPlanetEvents now daysAhead ++
      fetchIssPasses now daysAhead passes)

/-- `AstronomyEventsFetcher.get_next_event` over the held `self.events`:
`None` on an empty catalog, else the first held event with
`datetime >= now`, or `None` when none qualifies. -/
def get_next_event (events : List AstronomyEvent) (now : Int) : Option AstronomyEvent :=
  match events with
  | [] => none
  | _ :: _ => (events.filter fun e => decide (now ≤ e.timestamp)).head?


/-! ### Concrete instances used by the claims -/

/-- The spec's concrete scenario snapshot
`{cloudless:98, transparency:85, seeing:75, calm:90, moon_phase:0, moon_icon:"moon-new"}`. -/
def scenarioDict : AstroDict :=
  { cloudless_percentage := some (.num (pyF 98)),
    transparency_percentage := some (.num (pyF 85)),
    seeing_percentage := some (.num (pyF 75)),
    calm_percentage := some (.num (pyF 90)),
    moon_phase := some (.num (pyF 0)),
    moon_icon := some (.str "moon-new") }

/-- The scenario snapshot with cloudless 70, below the default minimum 95. -/
def lowCloudDict : AstroDict :=
  { scenarioDict with cloudless_percentage := some (.num (pyF 70)) }

/-- The scenario snapshot with a non-numeric string in a numeric field. -/
def badFieldDict : AstroDict :=
  { scenarioDict with transparency_percentage := some (.str "overcast") }

/-- The scenario snapshot with a number (a non-string) under `moon_icon`. -/
def moonIconNumDict : AstroDict :=
  { scenarioDict with moon_icon := some (.num (pyF 5)) }

/-- The breakdown `get_score_breakdown` produces for `scenarioDict` under
the default thresholds. -/
def scenarioBreakdown : Breakdown :=
  { cloudless := ⟨pyF 98, pyF 95, "✓ OK"⟩
    transparency := ⟨pyF 85, pyF 70, "✓ Good"⟩
    seeing := ⟨pyF 75, pyF 65, "✓ Steady"⟩
    calm := ⟨pyF 90, pyF 60, "✓ Calm"⟩
    moon_phase := ⟨pyF 0, .noEffect⟩ }

/-- A reference evaluation time: 2025-12-10 00:00. -/
def nowW : Int := dt 2025 12 10 0 0

/-- The Geminid entry of the static meteor table. -/
def geminidEv : AstronomyEvent :=
  ⟨"Geminid Meteor Shower", dt 2025 12 13 2 0, "meteor_shower", true⟩

/-- An ISS pass that ended the day before `nowW`. -/
def pastPass : IssPass := ⟨dt 2025 12 9 0 0, dt 2025 12 9 0 10⟩

/-- The event `_fetch_iss_passes` builds from `pastPass`. -/
def issPastEv : AstronomyEvent :=
  ⟨"ISS Pass - Bright Satellite", dt 2025 12 9 0 0, "iss_pass", true⟩

/-! ### Sanity lemmas: the `PyF` operations denote the usual rational
operations. -/
theorem dzero (a : PyF) : ((a.d : Rat)) ≠ 0 :=
  (Int.cast_ne_zero (α := Rat)).mpr (ne_of_gt a.dpos)

theorem toRat_pyF (k : Int) : (pyF k).toRat = (k : Rat) := by
  simp [pyF, PyF.toRat]

theorem toRat_add (a b : PyF) : (PyF.add a b).toRat = a.toRat + b.toRat := by
  have ha := dzero a
  have hb := dzero b
  simp only [PyF.add, PyF.toRat]
  push_cast
  field_simp

theorem toRat_sub (a b : PyF) : (PyF.sub a b).toRat = a.toRat - b.toRat := by
  have ha := dzero a
  have hb := dzero b
  simp only [PyF.sub, PyF.toRat]
  push_cast
  field_simp
  ring

theorem toRat_mul (a b : PyF) : (PyF.mul a b).toRat = a.toRat * b.toRat := by
  have ha := dzero a
  have hb := dzero b
  simp only [PyF.mul, PyF.toRat]
  push_cast
  rw [div_mul_div_comm]

theorem le_iff_toRat (a b : PyF) : PyF.le a b ↔ a.toRat ≤ b.toRat := by
  have ha : (0 : Rat) < (a.d : Rat) := by exact_mod_cast a.dpos
  have hb : (0 : Rat) < (b.d : Rat) := by exact_mod_cast b.dpos
  rw [PyF.toRat, PyF.toRat, div_le_div_iff₀ ha hb, PyF.le]
  exact_mod_cast Iff.rfl

theorem lt_iff_toRat (a b : PyF) : PyF.lt a b ↔ a.toRat < b.toRat := by
  have ha : (0 : Rat) < (a.d : Rat) := by exact_mod_cast a.dpos
  have hb : (0 : Rat) < (b.d : Rat) := by exact_mod_cast b.dpos
  rw [PyF.toRat, PyF.toRat, div_lt_div_iff₀ ha hb, PyF.lt]
  exact_mod_cast Iff.rfl

theorem pyDiv_toRat (a b : PyF) (hb : b.n ≠ 0) :
    ∃ c, pyDiv a b = .ok c ∧ c.toRat = a.toRat / b.toRat := by
  have ha := dzero a
  have hbd := dzero b
  have hbn : ((b.n : Rat)) ≠ 0 := (Int.cast_ne_zero (α := Rat)).mpr hb
  by_cases h : 0 < b.n
  · refine ⟨⟨a.n * b.d, a.d * b.n, mul_pos a.dpos h⟩, by simp [pyDiv, h], ?_⟩
    simp only [PyF.toRat]
    push_cast
    field_simp
  · have h' : b.n < 0 := by omega
    refine ⟨⟨-(a.n * b.d), a.d * (-b.n), mul_pos a.dpos (by omega)⟩, ?_, ?_⟩
    · simp [pyDiv, h, h']
    · simp only [PyF.toRat]
      push_cast
      field_simp

theorem pyDiv_zero (a b : PyF) (hb : b.n = 0) : pyDiv a b = .error .zeroDivisionError := by
  simp [pyDiv, hb]

/-! ### Helper lemmas -/

theorem pyFloat_caught (v : PyVal) (e : PyErr) (h : pyFloat v = .error e) :
    isCaught e = true := by
  cases v with
  | num x => simp [pyFloat] at h
  | str s =>
    cases hd : decDigits s.toList with
    | some k => rw [show s.toList = s.data from rfl] at hd; simp [pyFloat, hd] at h
    | none =>
      rw [show s.toList = s.data from rfl] at hd
      simp [pyFloat, hd] at h
      simp [← h, isCaught]
  | obj =>
    simp [pyFloat] at h
    simp [← h, isCaught]

theorem parseFields_cases (d : AstroDict) :
    (∃ e, parseFields d = .error e ∧ isCaught e = true) ∨
    (∃ v, parseFields d = .ok v ∧
      pyFloat (d.cloudless_percentage.getD (.num (pyF 0))) = .ok v.1) := by
  cases h1 : pyFloat (d.cloudless_percentage.getD (.num (pyF 0))) with
  | error e =>
    exact .inl ⟨e, by simp [parseFields, h1, Bind.bind, Except.bind], pyFloat_caught _ _ h1⟩
  | ok x1 =>
    cases h2 : pyFloat (d.transparency_percentage.getD (.num (pyF 0))) with
    | error e =>
      exact .inl ⟨e, by simp [parseFields, h1, h2, Bind.bind, Except.bind],
        pyFloat_caught _ _ h2⟩
    | ok x2 =>
      cases h3 : pyFloat (d.seeing_percentage.getD (.num (pyF 0))) with
      | error e =>
        exact .inl ⟨e, by simp [parseFields, h1, h2, h3, Bind.bind, Except.bind],
          pyFloat_caught _ _ h3⟩
      | ok x3 =>
        cases h4 : pyFloat (d.calm_percentage.getD (.num (pyF 0))) with
        | error e =>
          exact .inl ⟨e, by simp [parseFields, h1, h2, h3, h4, Bind.bind, Except.bind],
            pyFloat_caught _ _ h4⟩
        | ok x4 =>
          cases h5 : pyFloat (d.moon_phase.getD (.num (pyF 0))) with
          | error e =>
            exact .inl ⟨e, by simp [parseFields, h1, h2, h3, h4, h5, Bind.bind, Except.bind,
              Functor.map, Except.map], pyFloat_caught _ _ h5⟩
          | ok x5 =>
            refine .inr ⟨(x1, x2, x3, x4, x5), ?_, by simp [h1]⟩
            simp [parseFields, h1, h2, h3, h4, h5, Bind.bind, Except.bind, Functor.map,
              Except.map, pure, Except.pure]

theorem bind_ok {α β : Type} (a : α) (f : α → Except PyErr β) :
    (Except.ok a >>= f) = f a := rfl

theorem pyDiv_ok (a b : PyF) (h : b.n ≠ 0) : ∃ c, pyDiv a b = .ok c :=
  (pyDiv_toRat a b h).imp fun _ hc => hc.1

theorem pos_n_ne (a : PyF) (h : PyF.lt (pyF 0) a) : a.n ≠ 0 := by
  simp [PyF.lt, pyF] at h
  omega

theorem sub100_n_ne (a : PyF) (h : PyF.lt a (pyF 100)) : (PyF.sub (pyF 100) a).n ≠ 0 := by
  simp [PyF.lt, PyF.sub, pyF] at *
  omega

theorem cloudlessPoints_ok (cfg : Thresholds) (cl : PyF) :
    ∃ c, cloudlessPoints cfg cl = .ok c := by
  unfold cloudlessPoints
  by_cases h30 : PyF.lt (pyF 0) (PyF.sub (pyF 100) cfg.min_cloudless)
  · rcases pyDiv_ok (PyF.sub cl cfg.min_cloudless) _ (pos_n_ne _ h30) with ⟨c, hc⟩
    exact ⟨_, by rw [if_pos h30, hc, bind_ok]; rfl⟩
  · exact ⟨_, by rw [if_neg h30]; rfl⟩

theorem transparencyPoints_ok (cfg : Thresholds) (t : PyF)
    (ht0 : PyF.lt (pyF 0) cfg.min_transparency) (ht1 : PyF.lt cfg.min_transparency (pyF 100)) :
    ∃ c, transparencyPoints cfg t = .ok c := by
  unfold transparencyPoints
  by_cases hb : PyF.le cfg.min_transparency t
  · rcases pyDiv_ok (PyF.sub t cfg.min_transparency) _ (sub100_n_ne _ ht1) with ⟨c, hc⟩
    exact ⟨_, by rw [if_pos hb, hc, bind_ok]; rfl⟩
  · rcases pyDiv_ok t _ (pos_n_ne _ ht0) with ⟨c, hc⟩
    exact ⟨_, by rw [if_neg hb, hc, bind_ok]; rfl⟩

theorem seeingPoints_ok (cfg : Thresholds) (s : PyF)
    (hs0 : PyF.lt (pyF 0) cfg.min_seeing) (hs1 : PyF.lt cfg.min_seeing (pyF 100)) :
    ∃ c, seeingPoints cfg s = .ok c := by
  unfold seeingPoints
  by_cases hb : PyF.le cfg.min_seeing s
  · rcases pyDiv_ok (PyF.sub s cfg.min_seeing) _ (sub100_n_ne _ hs1) with ⟨c, hc⟩
    exact ⟨_, by rw [if_pos hb, hc, bind_ok]; rfl⟩
  · rcases pyDiv_ok s _ (pos_n_ne _ hs0) with ⟨c, hc⟩
    exact ⟨_, by rw [if_neg hb, hc, bind_ok]; rfl⟩

theorem moonPenaltyOf_ok (m : PyF) (icon : List Char) :
    ∃ c, moonPenaltyOf m icon = .ok c := by
  unfold moonPenaltyOf
  by_cases hn : (pyIn "new" icon || pyIn "no-moon" icon) = true
  · exact ⟨_, by rw [if_pos hn]; rfl⟩
  · by_cases hf : pyIn "full" icon = true
    · exact ⟨_, by rw [if_neg hn, if_pos hf]; rfl⟩
    · rcases pyDiv_ok m (pyF 100) (by simp [pyF]) with ⟨c, hc⟩
      exact ⟨_, by rw [if_neg hn, if_neg hf, hc, bind_ok]; rfl⟩

theorem scoreFromValues_ok (cfg : Thresholds) (cl t s ca m : PyF) (s0 : String)
    (ht0 : PyF.lt (pyF 0) cfg.min_transparency) (ht1 : PyF.lt cfg.min_transparency (pyF 100))
    (hs0 : PyF.lt (pyF 0) cfg.min_seeing) (hs1 : PyF.lt cfg.min_seeing (pyF 100)) :
    ∃ k, scoreFromValues cfg cl t s ca m (.str s0) = .ok k := by
  unfold scoreFromValues
  by_cases hg : PyF.lt cl cfg.min_cloudless
  · exact ⟨0, by rw [if_pos hg]⟩
  rw [if_neg hg]
  rcases cloudlessPoints_ok cfg cl with ⟨c1, hc1⟩
  rcases transparencyPoints_ok cfg t ht0 ht1 with ⟨c2, hc2⟩
  rcases seeingPoints_ok cfg s hs0 hs1 with ⟨c3, hc3⟩
  rcases pyDiv_ok ca (pyF 100) (by simp [pyF]) with ⟨c4, hc4⟩
  rcases moonPenaltyOf_ok m (s0.toList.map pyLowerChar) with ⟨c5, hc5⟩
  rw [hc1, bind_ok, hc2, bind_ok, hc3, bind_ok, hc4, bind_ok,
    show pyLower (.str s0) = .ok (s0.toList.map pyLowerChar) from rfl, bind_ok, hc5, bind_ok]
  exact ⟨_, rfl⟩

theorem mem_fetch_events {e : AstronomyEvent} {now daysAhead : Int} {passes : List IssPass} :
    e ∈ fetch_events now daysAhead passes ↔
      e ∈ fetchMeteorShowers now daysAhead ++ fetchPlanetEvents now daysAhead ++
        fetchIssPasses now daysAhead passes :=
  List.mem_insertionSort evLE

theorem fetch_events_sorted (now daysAhead : Int) (passes : List IssPass) :
    (fetch_events now daysAhead passes).Sorted evLE :=
  List.sorted_insertionSort evLE _

theorem get_next_event_of_sorted (evs : List AstronomyEvent) (hs : evs.Sorted evLE)
    (now : Int) :
    (get_next_event evs now = none ↔ ∀ e ∈ evs, e.timestamp < now) ∧
    (∀ e, get_next_event evs now = some e →
      e ∈ evs ∧ now ≤ e.timestamp ∧
      ∀ e' ∈ evs, now ≤ e'.timestamp → e.timestamp ≤ e'.timestamp) := by
  cases hevs : evs with
  | nil =>
    constructor
    · simp [get_next_event]
    · intro e h
      simp [get_next_event] at h
  | cons a l =>
    rw [← hevs]
    have hne : evs = a :: l := hevs
    constructor
    · rw [show get_next_event evs now =
          (evs.filter fun e => decide (now ≤ e.timestamp)).head? from by
        rw [hne]; rfl]
      rw [List.head?_eq_none_iff, List.filter_eq_nil_iff]
      constructor
      · intro h e he
        have := h e he
        simp only [decide_eq_true_eq] at this
        omega
      · intro h e he
        simp only [decide_eq_true_eq]
        have := h e he
        omega
    · intro e hsome
      rw [show get_next_event evs now =
          (evs.filter fun e => decide (now ≤ e.timestamp)).head? from by
        rw [hne]; rfl] at hsome
      have hmem : e ∈ evs.filter fun e => decide (now ≤ e.timestamp) :=
        List.mem_of_mem_head? (by rw [hsome]; rfl)
      have hef := List.mem_filter.mp hmem
      have hnow : now ≤ e.timestamp := by
        have := hef.2
        simpa using this
      refine ⟨hef.1, hnow, ?_⟩
      intro e' he' hnow'
      have hmem' : e' ∈ evs.filter fun e => decide (now ≤ e.timestamp) :=
        List.mem_filter.mpr ⟨he', by simpa using hnow'⟩
      have hsf : (evs.filter fun e => decide (now ≤ e.timestamp)).Sorted evLE :=
        hs.filter _
      cases hf : evs.filter fun e => decide (now ≤ e.timestamp) with
      | nil => rw [hf] at hsome; cases hsome
      | cons b bl =>
        rw [hf] at hsome
        have hbe : b = e := by
          simpa using hsome
        subst hbe
        rw [hf] at hmem' hsf
        rcases List.mem_cons.mp hmem' with rfl | htl
        · exact le_refl _
        · exact List.rel_of_sorted_cons hsf _ htl

/-! ### The claims -/

/-- Claim C1, counterexample: with a failing delivery channel
(`delivery = false`), a score of 95 and fresh state, the send coroutine
reports failure (`sendOk = some false`) yet `check_and_notify` still sets
`last_notification_type`/`last_notification_time` — the state does not
stay unchanged, so the claim as stated is false on the code. -/
theorem failed_send_still_records_state_cx :
    (check_and_notify false 95 1000 ⟨none, none⟩).sendOk = some false ∧
    (check_and_notify false 95 1000 ⟨none, none⟩).state =
      ⟨some "EXCEPTIONAL", some 1000⟩ ∧
    (check_and_notify false 95 1000 ⟨none, none⟩).state ≠ ⟨none, none⟩ :=
  ⟨by decide, by decide, by decide⟩

/-- Claim C1, amended: on every evaluation that reaches a notifiable tier
(score ≥ 80) and is not suppressed by the debounce, the send's reported
outcome is the delivery result, but the state fields are updated to the
current tier and time regardless of that outcome — `check_and_notify`
discards the boolean, so a failed send is not retried for the same tier
within the hour. -/
theorem state_recorded_regardless_of_send_result (delivery : Bool) (score now : Int)
    (st : NotificationState) (hsc : 80 ≤ score)
    (hdeb : debounced st score now = false) :
    (check_and_notify delivery score now st).state =
      ⟨some (get_rating score), some now⟩ ∧
    (check_and_notify delivery score now st).sendOk = some delivery := by
  unfold check_and_notify
  rw [if_neg (by simp [hdeb])]
  by_cases h90 : score ≥ 90
  · rw [if_pos h90]
    constructor
    · simp [get_rating, h90]
    · rfl
  · rw [if_neg h90, if_pos (by omega)]
    constructor
    · simp [get_rating, h90, show score ≥ 80 from hsc]
    · rfl

/-- Witness for the amended claim C1 at a concrete failing send. -/
theorem state_recorded_regardless_of_send_result_witness :
    (80 ≤ (85 : Int)) ∧ debounced ⟨none, none⟩ 85 2000 = false ∧
    ((check_and_notify false 85 2000 ⟨none, none⟩).state =
        ⟨some (get_rating 85), some 2000⟩ ∧
      (check_and_notify false 85 2000 ⟨none, none⟩).sendOk = some false) :=
  ⟨by decide, by decide,
    state_recorded_regardless_of_send_result false 85 2000 ⟨none, none⟩
      (by decide) (by decide)⟩

/-- Claim C2, counterexample: a dictionary holding a number under
`moon_icon` makes `calculate_score` raise `AttributeError` (from
`moon_icon.lower()`, which the `except (KeyError, ValueError, TypeError)`
clause does not catch) under the default thresholds, which lie in
[0,100] — so `calculate_score` does not return normally on every input
dictionary. -/
theorem calculate_score_raises_cx :
    calculate_score defaultThresholds moonIconNumDict = .error .attributeError := by
  decide

/-- Claim C2, amended: for every input dictionary whose `moon_icon` value
(when present) is a string, and every thresholds configuration with
`min_transparency` and `min_seeing` strictly between 0 and 100 (and
`min_cloudless` in [0,100]), `calculate_score` returns normally, and any
evaluation whose field parsing fails yields the fallback score 0. -/
theorem calculate_score_total_amended (cfg : Thresholds) (d : AstroDict)
    (hicon : ∀ v, d.moon_icon = some v → ∃ s, v = .str s)
    (hc0 : PyF.le (pyF 0) cfg.min_cloudless) (hc1 : PyF.le cfg.min_cloudless (pyF 100))
    (ht0 : PyF.lt (pyF 0) cfg.min_transparency) (ht1 : PyF.lt cfg.min_transparency (pyF 100))
    (hsg0 : PyF.lt (pyF 0) cfg.min_seeing) (hsg1 : PyF.lt cfg.min_seeing (pyF 100)) :
    (∃ k, calculate_score cfg d = .ok k) ∧
    ∀ e, parseFields d = .error e → calculate_score cfg d = .ok 0 := by
  have hiconStr : ∃ s0, d.moon_icon.getD (.str "") = .str s0 := by
    cases hmi : d.moon_icon with
    | none => exact ⟨"", rfl⟩
    | some v => rcases hicon v hmi with ⟨s0, rfl⟩; exact ⟨s0, rfl⟩
  constructor
  · rcases parseFields_cases d with ⟨e, he, hcau⟩ | ⟨v, hv, -⟩
    · exact ⟨0, by simp [calculate_score, calcBody, he, Bind.bind, Except.bind, hcau]⟩
    · obtain ⟨x1, x2, x3, x4, x5⟩ := v
      rcases hiconStr with ⟨s0, hgd⟩
      rcases scoreFromValues_ok cfg x1 x2 x3 x4 x5 s0 ht0 ht1 hsg0 hsg1 with ⟨k, hk⟩
      refine ⟨k, ?_⟩
      simp [calculate_score, calcBody, hv, Bind.bind, Except.bind, hgd, hk]
  · intro e he
    rcases parseFields_cases d with ⟨e', he', hcau⟩ | ⟨v, hv, -⟩
    · rw [he] at he'
      have := Except.error.inj he'
      subst this
      simp [calculate_score, calcBody, he, Bind.bind, Except.bind, hcau]
    · rw [hv] at he
      cases he

/-- Witness for the amended claim C2 at the concrete scenario snapshot. -/
theorem calculate_score_total_amended_witness :
    (∃ k, calculate_score defaultThresholds scenarioDict = .ok k) ∧
    ∀ e, parseFields scenarioDict = .error e →
      calculate_score defaultThresholds scenarioDict = .ok 0 :=
  calculate_score_total_amended defaultThresholds scenarioDict
    (fun v hv => ⟨"moon-new", by injection hv with h; exact h.symm⟩)
    (by decide) (by decide) (by decide) (by decide) (by decide) (by decide)

/-- Claim C3: whenever the snapshot's cloudless percentage parses to a
value strictly below the configured `min_cloudless`, `calculate_score`
returns 0 — whatever the remaining fields hold (a parse failure among
them is caught and also yields 0) — and `get_rating` of that result is
"Poor". -/
theorem cloudless_gate_zero (cfg : Thresholds) (d : AstroDict) (x : PyF)
    (hx : pyFloat (d.cloudless_percentage.getD (.num (pyF 0))) = .ok x)
    (hlt : PyF.lt x cfg.min_cloudless) :
    calculate_score cfg d = .ok 0 ∧ get_rating 0 = "Poor" := by
  refine ⟨?_, by decide⟩
  rcases parseFields_cases d with ⟨e, he, hc⟩ | ⟨v, hv, hv1⟩
  · simp [calculate_score, calcBody, he, Bind.bind, Except.bind, hc]
  · have hx1 : v.1 = x := by rw [hv1] at hx; exact Except.ok.inj hx
    obtain ⟨x1, x2, x3, x4, x5⟩ := v
    simp only at hx1
    subst hx1
    simp [calculate_score, calcBody, hv, Bind.bind, Except.bind, scoreFromValues, hlt]

/-- Witness for claim C3: the spec's second concrete scenario, cloudless
70 against the default minimum 95. -/
theorem cloudless_gate_zero_witness :
    (pyFloat (lowCloudDict.cloudless_percentage.getD (.num (pyF 0))) = .ok (pyF 70)) ∧
    PyF.lt (pyF 70) defaultThresholds.min_cloudless ∧
    (calculate_score defaultThresholds lowCloudDict = .ok 0 ∧ get_rating 0 = "Poor") :=
  ⟨rfl, by decide, cloudless_gate_zero defaultThresholds lowCloudDict (pyF 70) rfl (by decide)⟩

/-- Claim C4: `get_rating` has the exact step boundaries 0–59 "Poor",
60–79 "Good", 80–89 "AMAZING", 90–100 "EXCEPTIONAL", and is monotone
non-decreasing in the score under the severity order
Poor < Good < AMAZING < EXCEPTIONAL. -/
theorem rating_steps_monotone :
    (∀ s : Int, 0 ≤ s → s ≤ 59 → get_rating s = "Poor") ∧
    (∀ s : Int, 60 ≤ s → s ≤ 79 → get_rating s = "Good") ∧
    (∀ s : Int, 80 ≤ s → s ≤ 89 → get_rating s = "AMAZING") ∧
    (∀ s : Int, 90 ≤ s → s ≤ 100 → get_rating s = "EXCEPTIONAL") ∧
    (∀ s t : Int, 0 ≤ s → s ≤ t → t ≤ 100 →
      ratingRank (get_rating s) ≤ ratingRank (get_rating t)) := by
  refine ⟨?_, ?_, ?_, ?_, ?_⟩
  · intro s h1 h2; simp only [get_rating]; split_ifs <;> first | rfl | omega
  · intro s h1 h2; simp only [get_rating]; split_ifs <;> first | rfl | omega
  · intro s h1 h2; simp only [get_rating]; split_ifs <;> first | rfl | omega
  · intro s h1 h2; simp only [get_rating]; split_ifs <;> first | rfl | omega
  · intro s t h1 h2 h3; simp only [get_rating]; split_ifs <;> first | decide | omega

/-- Witness for claim C4 at the boundary scores. -/
theorem rating_steps_monotone_witness :
    get_rating 0 = "Poor" ∧ get_rating 60 = "Good" ∧ get_rating 89 = "AMAZING" ∧
    get_rating 100 = "EXCEPTIONAL" ∧
    ratingRank (get_rating 59) ≤ ratingRank (get_rating 90) :=
  ⟨rating_steps_monotone.1 0 (by decide) (by decide),
   rating_steps_monotone.2.1 60 (by decide) (by decide),
   rating_steps_monotone.2.2.1 89 (by decide) (by decide),
   rating_steps_monotone.2.2.2.1 100 (by decide) (by decide),
   rating_steps_monotone.2.2.2.2 59 90 (by decide) (by decide) (by decide)⟩

/-- Claim C5: with a notifiable score (≥ 80), a previous notification of
the same tier less than 3600 s ago suppresses the send and leaves the
state untouched; a differing tier sends even inside the hour window
(EXCEPTIONAL for ≥ 90, else AMAZING) and re-records the state; and a
score below 80 sends nothing and changes nothing. -/
theorem notify_debounce (delivery : Bool) (score now t : Int) (st : NotificationState) :
    (80 ≤ score → st.last_notification_time = some t → now - t < 3600 →
      st.last_notification_type = some (get_rating score) →
      check_and_notify delivery score now st = ⟨none, none, st⟩) ∧
    (80 ≤ score → st.last_notification_time = some t → now - t < 3600 →
      st.last_notification_type ≠ some (get_rating score) →
      (check_and_notify delivery score now st).sent =
        some (if 90 ≤ score then .exceptional else .amazing) ∧
      (check_and_notify delivery score now st).state =
        ⟨some (get_rating score), some now⟩) ∧
    (score < 80 →
      (check_and_notify delivery score now st).sent = none ∧
      (check_and_notify delivery score now st).state = st) := by
  refine ⟨?_, ?_, ?_⟩
  · intro _ htime hlt htype
    have hdeb : debounced st score now = true := by
      simp [debounced, htime, if_pos hlt, htype]
    unfold check_and_notify
    rw [if_pos hdeb]
  · intro hsc htime hlt htype
    have hdeb : debounced st score now = false := by
      simp [debounced, htime, if_pos hlt]
      intro hcontra
      exact absurd (by rw [hcontra]) htype
    unfold check_and_notify
    rw [if_neg (by simp [hdeb])]
    by_cases h90 : score ≥ 90
    · rw [if_pos h90, if_pos (by omega)]
      exact ⟨rfl, by simp [get_rating, h90]⟩
    · rw [if_neg h90, if_pos (by omega), if_neg (by omega)]
      exact ⟨rfl, by simp [get_rating, h90, show score ≥ 80 from hsc]⟩
  · intro hsc
    unfold check_and_notify
    by_cases hdeb : debounced st score now = true
    · rw [if_pos hdeb]
      exact ⟨rfl, rfl⟩
    · rw [if_neg hdeb, if_neg (by omega), if_neg (by omega)]
      exact ⟨rfl, rfl⟩

/-- Witness for claim C5: the spec's debounce scenario — last tier
"AMAZING" recorded 1000 s ago; a repeat AMAZING (score 85) is suppressed,
an EXCEPTIONAL (score 95) goes through, and a score of 50 does nothing. -/
theorem notify_debounce_witness :
    (check_and_notify true 85 5000 ⟨some "AMAZING", some 4000⟩ =
      ⟨none, none, ⟨some "AMAZING", some 4000⟩⟩) ∧
    ((check_and_notify true 95 5000 ⟨some "AMAZING", some 4000⟩).sent =
        some (if 90 ≤ (95 : Int) then .exceptional else .amazing) ∧
      (check_and_notify true 95 5000 ⟨some "AMAZING", some 4000⟩).state =
        ⟨some (get_rating 95), some 5000⟩) ∧
    ((check_and_notify true 50 5000 ⟨some "AMAZING", some 4000⟩).sent = none ∧
      (check_and_notify true 50 5000 ⟨some "AMAZING", some 4000⟩).state =
        ⟨some "AMAZING", some 4000⟩) :=
  ⟨(notify_debounce true 85 5000 4000 ⟨some "AMAZING", some 4000⟩).1
      (by decide) rfl (by decide) (by decide),
    (notify_debounce true 95 5000 4000 ⟨some "AMAZING", some 4000⟩).2.1
      (by decide) rfl (by decide) (by decide),
    (notify_debounce true 50 5000 4000 ⟨some "AMAZING", some 4000⟩).2.2 (by decide)⟩

/-- Claim C6: the spec's concrete scenario — cloudless 98, transparency
85, seeing 75, calm 90, new moon — scores exactly 54 under the default
thresholds, and 54 rates "Poor". -/
theorem scenario_scores_54 :
    calculate_score defaultThresholds scenarioDict = .ok 54 ∧ get_rating 54 = "Poor" :=
  ⟨by decide, by decide⟩

/-- Claim C7, counterexample: an ISS pass that started a day before `now`
is kept by `fetch_events` (its filter has no lower bound), so not every
fetched event satisfies `now ≤ timestamp`. -/
theorem iss_pass_below_window_cx :
    issPastEv ∈ fetch_events nowW 30 [pastPass] ∧ issPastEv.timestamp < nowW := by
  constructor <;> decide

/-- Claim C7, amended: every event produced by `fetch_events` has
`timestamp ≤ now + days_ahead` (in seconds); every event from the static
tables — i.e. every event that is not an `"iss_pass"` — additionally has
`now ≤ timestamp`; and the result is sorted ascending by timestamp.  ISS
passes are only bounded above. -/
theorem events_window_amended (now daysAhead : Int) (passes : List IssPass) :
    (∀ e ∈ fetch_events now daysAhead passes, e.timestamp ≤ now + daysAhead * 86400) ∧
    (∀ e ∈ fetch_events now daysAhead passes, e.etype ≠ "iss_pass" → now ≤ e.timestamp) ∧
    (fetch_events now daysAhead passes).Sorted evLE := by
  refine ⟨?_, ?_, fetch_events_sorted now daysAhead passes⟩
  · intro e he
    rw [mem_fetch_events, List.mem_append, List.mem_append] at he
    rcases he with (hm | hp) | hi
    · rw [fetchMeteorShowers, List.mem_filter] at hm
      have h2 := hm.2
      simp only [Bool.and_eq_true, decide_eq_true_eq] at h2
      exact h2.2
    · rw [fetchPlanetEvents, List.mem_filter] at hp
      have h2 := hp.2
      simp only [Bool.and_eq_true, decide_eq_true_eq] at h2
      exact h2.2
    · rw [fetchIssPasses, List.mem_map] at hi
      rcases hi with ⟨p, hp, rfl⟩
      rw [List.mem_filter] at hp
      have h2 := hp.2
      simp only [decide_eq_true_eq] at h2
      exact h2
  · intro e he hty
    rw [mem_fetch_events, List.mem_append, List.mem_append] at he
    rcases he with (hm | hp) | hi
    · rw [fetchMeteorShowers, List.mem_filter] at hm
      have h2 := hm.2
      simp only [Bool.and_eq_true, decide_eq_true_eq] at h2
      exact h2.1
    · rw [fetchPlanetEvents, List.mem_filter] at hp
      have h2 := hp.2
      simp only [Bool.and_eq_true, decide_eq_true_eq] at h2
      exact h2.1
    · rw [fetchIssPasses, List.mem_map] at hi
      rcases hi with ⟨p, hp, rfl⟩
      exact absurd rfl hty

/-- Witness for the amended claim C7 at the Geminid entry of a concrete
refresh. -/
theorem events_window_amended_witness :
    geminidEv ∈ fetch_events nowW 30 [] ∧
    geminidEv.timestamp ≤ nowW + 30 * 86400 ∧
    (geminidEv.etype ≠ "iss_pass" ∧ nowW ≤ geminidEv.timestamp) :=
  ⟨by decide, (events_window_amended nowW 30 []).1 geminidEv (by decide),
    by decide, (events_window_amended nowW 30 []).2.1 geminidEv (by decide) (by decide)⟩

/-- Claim C8: over the catalog a refresh produced, `get_next_event`
returns `none` exactly when no held event has `timestamp ≥ now`, and
otherwise returns a held event with `timestamp ≥ now` that is earliest
among all such events. -/
theorem next_event_spec (fnow daysAhead now : Int) (passes : List IssPass) :
    (get_next_event (fetch_events fnow daysAhead passes) now = none ↔
      ∀ e ∈ fetch_events fnow daysAhead passes, e.timestamp < now) ∧
    (∀ e, get_next_event (fetch_events fnow daysAhead passes) now = some e →
      e ∈ fetch_events fnow daysAhead passes ∧ now ≤ e.timestamp ∧
      ∀ e' ∈ fetch_events fnow daysAhead passes, now ≤ e'.timestamp →
        e.timestamp ≤ e'.timestamp) :=
  get_next_event_of_sorted _ (fetch_events_sorted fnow daysAhead passes) now

/-- Witness for claim C8: after the concrete refresh, the next event is
the Geminid shower, and the theorem yields its minimality. -/
theorem next_event_spec_witness :
    (get_next_event (fetch_events nowW 30 []) nowW = some geminidEv) ∧
    (geminidEv ∈ fetch_events nowW 30 [] ∧ nowW ≤ geminidEv.timestamp ∧
      ∀ e' ∈ fetch_events nowW 30 [], nowW ≤ e'.timestamp →
        geminidEv.timestamp ≤ e'.timestamp) :=
  ⟨by decide, (next_event_spec nowW 30 nowW []).2 geminidEv (by decide)⟩

/-- Claim C9: `get_score_breakdown` has no parse-failure fallback — on a
dictionary with a non-numeric transparency it raises `ValueError` to the
caller, while `calculate_score` on the same dictionary returns the
fallback 0. -/
theorem breakdown_propagates_parse_error :
    get_score_breakdown defaultThresholds badFieldDict = .error .valueError ∧
    calculate_score defaultThresholds badFieldDict = .ok 0 :=
  ⟨rfl, by decide⟩

/-- Claim C10: whatever the configured thresholds and whatever snapshot
(among those whose breakdown succeeds), the calm row of
`get_score_breakdown` carries the fixed threshold 60 and status "✓ Calm"
exactly when the calm value is ≥ 60, "⚠ Windy" otherwise. -/
theorem calm_threshold_fixed_sixty (cfg : Thresholds) (d : AstroDict) (b : Breakdown)
    (h : get_score_breakdown cfg d = .ok b) :
    b.calm.threshold = pyF 60 ∧
    b.calm.status = (if PyF.le (pyF 60) b.calm.value then "✓ Calm" else "⚠ Windy") := by
  cases h1 : pyFloat (d.cloudless_percentage.getD (.num (pyF 0))) with
  | error e => simp [get_score_breakdown, h1, Bind.bind, Except.bind] at h
  | ok x1 =>
    cases h2 : pyFloat (d.transparency_percentage.getD (.num (pyF 0))) with
    | error e => simp [get_score_breakdown, h1, h2, Bind.bind, Except.bind] at h
    | ok x2 =>
      cases h3 : pyFloat (d.seeing_percentage.getD (.num (pyF 0))) with
      | error e => simp [get_score_breakdown, h1, h2, h3, Bind.bind, Except.bind] at h
      | ok x3 =>
        cases h4 : pyFloat (d.calm_percentage.getD (.num (pyF 0))) with
        | error e => simp [get_score_breakdown, h1, h2, h3, h4, Bind.bind, Except.bind] at h
        | ok x4 =>
          cases h5 : pyFloat (d.moon_phase.getD (.num (pyF 0))) with
          | error e =>
            simp [get_score_breakdown, h1, h2, h3, h4, h5, Bind.bind, Except.bind,
              Functor.map, Except.map] at h
          | ok x5 =>
            simp [get_score_breakdown, h1, h2, h3, h4, h5, Bind.bind, Except.bind,
              Functor.map, Except.map, pure, Except.pure] at h
            subst h
            exact ⟨rfl, rfl⟩

/-- Witness for claim C10 at the concrete scenario snapshot. -/
theorem calm_threshold_fixed_sixty_witness :
    (get_score_breakdown defaultThresholds scenarioDict = .ok scenarioBreakdown) ∧
    (scenarioBreakdown.calm.threshold = pyF 60 ∧
      scenarioBreakdown.calm.status =
        (if PyF.le (pyF 60) scenarioBreakdown.calm.value then "✓ Calm" else "⚠ Windy")) :=
  ⟨rfl, calm_threshold_fixed_sixty defaultThresholds scenarioDict scenarioBreakdown rfl⟩

end Stargazing
